import Mathlib

/-!
# Trilinos: Ifpack_Chebyshev and Piro::TransientSolver

A shallow embedding of

* `packages/piro/src/Piro_TransientSolver_Def.hpp` (the accessors `get_p_space`,
  `get_g_space`, the sensitivity-method setter and getter, `createInArgs`,
  `createOutArgsImpl` and the sensitivity check of `evalConvergedModel`), translated
  from the C++ source, and
* `packages/ifpack/src/Ifpack_Chebyshev.h`. The header declares the class, its
  fields and its inline members (`SetUseTranspose`, `UseTranspose`, `Condest()`,
  `IsInitialized`, `IsComputed`), and only declares the constructor, `Initialize`,
  `Compute` and `ApplyInverse`; these four are modelled from the natural-language
  specification and are marked as such.

Scalars (`double`) are embedded as exact rationals, C++ `int` as `Int`.
-/

/-! ## Piro::TransientSolver -/

namespace Piro

/-- The exception classes raised through `TEUCHOS_TEST_FOR_EXCEPTION` in
`Piro_TransientSolver_Def.hpp`; every throw site there uses
`Teuchos::Exceptions::InvalidParameter`. -/
inductive Exception where
  | InvalidParameter
  deriving DecidableEq, Repr

/-- Outcome of a C++ call that either returns a value or throws. -/
inductive Outcome (α : Type) where
  | returned (a : α)
  | thrown (e : Exception)
  deriving DecidableEq, Repr

/-- Modelled from the spec: the declaration of `enum SENS_METHOD` is in
`Piro_TransientSolver.hpp`, which is missing; its three enumerators are the ones
assigned in `setSensitivityMethod`. -/
inductive SENS_METHOD where
  | NONE
  | FORWARD
  | ADJOINT
  deriving DecidableEq, Repr

/-- Modelled from the spec: the integer value of each enumerator of the missing
`enum SENS_METHOD`, as documented by the comment in `getSensitivityMethod`:
`NONE = 0, FORWARD = 1, ADJOINT = 2`. -/
def SENS_METHOD.toInt : SENS_METHOD → Int
  | .NONE => 0
  | .FORWARD => 1
  | .ADJOINT => 2

/-- The part of `Thyra::ModelEvaluator<Scalar>` that the accessors call: an external
collaborator, with vector spaces drawn from an arbitrary type `Space`. -/
structure ModelEvaluator (Space : Type) where
  Np : Int
  Ng : Int
  get_p_space : Int → Space
  get_g_space : Int → Space
  get_x_space : Space

/-- The data members of `Piro::TransientSolver<Scalar>` read or written by the
embedded member functions. -/
structure TransientSolver (Space : Type) where
  model_ : ModelEvaluator Space
  num_p_ : Int
  num_g_ : Int
  sensitivityMethod_ : SENS_METHOD

/-- `TransientSolver::get_p_space(int l)`. -/
def TransientSolver.get_p_space {Space : Type} (self : TransientSolver Space) (l : Int) :
    Outcome Space :=
  if l ≥ self.num_p_ ∨ l < 0 then
    .thrown .InvalidParameter
  else
    .returned (self.model_.get_p_space l)

/-- `TransientSolver::get_g_space(int j)`. -/
def TransientSolver.get_g_space {Space : Type} (self : TransientSolver Space) (j : Int) :
    Outcome Space :=
  if j > self.num_g_ ∨ j < 0 then
    .thrown .InvalidParameter
  else if j < self.num_g_ then
    .returned (self.model_.get_g_space j)
  else
    .returned self.model_.get_x_space

/-- `TransientSolver::setSensitivityMethod(const std::string)`. The member
`sensitivityMethod_` is assigned before the adjoint guard throws, so the object after
the call is returned together with the outcome. -/
def TransientSolver.setSensitivityMethod {Space : Type} (self : TransientSolver Space)
    (sensitivity_method_string : String) : TransientSolver Space × Outcome Unit :=
  let assigned : Outcome (TransientSolver Space) :=
    if sensitivity_method_string = "None" then
      .returned { self with sensitivityMethod_ := .NONE }
    else if sensitivity_method_string = "Forward" then
      .returned { self with sensitivityMethod_ := .FORWARD }
    else if sensitivity_method_string = "Adjoint" then
      .returned { self with sensitivityMethod_ := .ADJOINT }
    else
      .thrown .InvalidParameter
  match assigned with
  | .thrown e => (self, .thrown e)
  | .returned self1 =>
    if self1.sensitivityMethod_ = .ADJOINT then
      (self1, .thrown .InvalidParameter)
    else
      (self1, .returned ())

/-- `TransientSolver::getSensitivityMethod()`: the enumerator converted to `int`. -/
def TransientSolver.getSensitivityMethod {Space : Type} (self : TransientSolver Space) :
    Int :=
  self.sensitivityMethod_.toInt

end Piro

/-! ## Ifpack_Chebyshev -/

namespace Ifpack_Chebyshev

/-- A local (multi)vector with one column: a list of scalars, one per local row. -/
abbrev Vec := List ℚ

/-- Entrywise sum. -/
def Vec.add (x y : Vec) : Vec := List.zipWith (fun a b => a + b) x y

/-- Entrywise difference. -/
def Vec.sub (x y : Vec) : Vec := List.zipWith (fun a b => a - b) x y

/-- Entrywise (Hadamard) product, the `⊙` of the specification. -/
def Vec.had (x y : Vec) : Vec := List.zipWith (fun a b => a * b) x y

/-- Multiplication by a scalar. -/
def Vec.scale (a : ℚ) (x : Vec) : Vec := x.map (fun v => a * v)

/-- The zero vector with the shape of `x`. -/
def Vec.zeroLike (x : Vec) : Vec := x.map (fun _ => 0)

/-- The operations the kernel needs from the external operator (specification,
section 6): forward and transpose application and diagonal extraction. -/
structure Operator where
  apply : Vec → Vec
  applyTranspose : Vec → Vec
  diagonal : Vec

/-- The diagonal operator `diag(d)`. -/
def diagOperator (d : Vec) : Operator where
  apply := fun x => Vec.had d x
  applyTranspose := fun x => Vec.had d x
  diagonal := d

/-- The three failure classes of the specification's error taxonomy (section 7). -/
inductive Error where
  | configuration
  | numerical
  | precondition
  deriving DecidableEq, Repr

/-- The status a lifecycle call reports. -/
inductive Status where
  | ok
  | failed (e : Error)
  deriving DecidableEq, Repr

/-- The private data members of `class Ifpack_Chebyshev` (header lines 284 to 350),
without the operator pointers, the timer and the label. `InvDiagonal_` is a pointer
in the source: `none` is the null pointer. `ConfiguredLambdaMax` records the option
"max eigenvalue" of the specification's configuration table, `none` when unset. -/
structure State where
  IsInitialized_ : Bool
  IsComputed_ : Bool
  NumInitialize_ : Int
  NumCompute_ : Int
  NumApplyInverse_ : Int
  InitializeTime_ : ℚ
  ComputeTime_ : ℚ
  ApplyInverseTime_ : ℚ
  ComputeFlops_ : ℚ
  ApplyInverseFlops_ : ℚ
  PolyDegree_ : Int
  UseTranspose_ : Bool
  Condest_ : ℚ
  ComputeCondest_ : Bool
  EigRatio_ : ℚ
  LambdaMin_ : ℚ
  LambdaMax_ : ℚ
  MinDiagonalValue_ : ℚ
  NumMyRows_ : Int
  NumMyNonzeros_ : Int
  NumGlobalRows_ : Int
  NumGlobalNonzeros_ : Int
  IsRowMatrix_ : Bool
  InvDiagonal_ : Option Vec
  ZeroStartingSolution_ : Bool
  ConfiguredLambdaMax : Option ℚ

/-- `Ifpack_Chebyshev::IsInitialized()`. -/
def State.IsInitialized (s : State) : Bool := s.IsInitialized_

/-- `Ifpack_Chebyshev::IsComputed()`. -/
def State.IsComputed (s : State) : Bool := s.IsComputed_

/-- Modelled from the spec: the sign used by the DiagonalExtractor (section 4.1),
with `sign(0) = +1`; the body of `Compute` is missing. -/
def sign (d : ℚ) : ℚ := if d < 0 then -1 else 1

/-- Modelled from the spec: one entry of InverseDiagonal (section 4.1),
`sign(d_i) / max(|d_i|, MinDiagonalValue)`; the body of `Compute` is missing. -/
def invertDiagonalEntry (MinDiagonalValue d : ℚ) : ℚ :=
  sign d / max |d| MinDiagonalValue

/-- Modelled from the spec: the DiagonalExtractor of section 4.1, a pure function of
the operator's diagonal and the configured floor; the body of `Compute` is missing. -/
def DiagonalExtractor (MinDiagonalValue : ℚ) (diagonal : Vec) : Vec :=
  diagonal.map (invertDiagonalEntry MinDiagonalValue)

/-- Modelled from the spec: the recurrence center `θ = (α + β)/2` with `α = LambdaMax`
and `β = LambdaMax / EigRatio` (section 4.3); the body of `ApplyInverse` is missing. -/
def theta (LambdaMax EigRatio : ℚ) : ℚ := (LambdaMax + LambdaMax / EigRatio) / 2

/-- Modelled from the spec: the half-width `δ = (α − β)/2` of the target interval
(section 4.3); the body of `ApplyInverse` is missing. -/
def delta (LambdaMax EigRatio : ℚ) : ℚ := (LambdaMax - LambdaMax / EigRatio) / 2

/-- Modelled from the spec: the Chebyshev coefficients `(c_k, d_k)` for `k ≥ 1`.
Section 4.3 and the design notes leave their formula open, so they are a parameter of
the iterator, as functions of `θ`, `ρ = δ/θ` and the step index. -/
structure Coefficients where
  c : ℚ → ℚ → Nat → ℚ
  d : ℚ → ℚ → Nat → ℚ

/-- Modelled from the spec: steps `k, k+1, …, k+n−1` of the three-term recurrence of
section 4.3, `x_{k+1} = x_k + c_k·z_k + d_k·(x_k − x_{k−1})` with `r_k = b − A·x_k`
and `z_k = InverseDiagonal ⊙ r_k`; the body of `ApplyInverse` is missing. -/
def chebyshevSteps (coef : Coefficients) (A : Vec → Vec) (InverseDiagonal : Vec)
    (θ ρ : ℚ) (b : Vec) : Nat → Nat → Vec → Vec → Vec
  | _, 0, _, xk => xk
  | k, n + 1, xprev, xk =>
    let rk := Vec.sub b (A xk)
    let zk := Vec.had InverseDiagonal rk
    let xnext :=
      Vec.add (Vec.add xk (Vec.scale (coef.c θ ρ k) zk))
        (Vec.scale (coef.d θ ρ k) (Vec.sub xk xprev))
    chebyshevSteps coef A InverseDiagonal θ ρ b (k + 1) n xk xnext

/-- Modelled from the spec: the ChebyshevIterator of section 4.3. Degree 0 returns
`x₀`; otherwise `r₀ = b − A·x₀` (the subtraction skipped on the zero-start fast
path), `z₀ = InverseDiagonal ⊙ r₀`, `x₁ = x₀ + z₀/θ`, followed by the recurrence for
`k = 1..Degree−1`. The body of `ApplyInverse` is missing. -/
def ChebyshevIterator (coef : Coefficients) (A : Vec → Vec) (InverseDiagonal : Vec)
    (LambdaMax EigRatio : ℚ) (Degree : Nat) (zeroStart : Bool) (b x0 : Vec) : Vec :=
  match Degree with
  | 0 => x0
  | n + 1 =>
    let θ := theta LambdaMax EigRatio
    let ρ := delta LambdaMax EigRatio / θ
    let r0 := if zeroStart then b else Vec.sub b (A x0)
    let z0 := Vec.had InverseDiagonal r0
    let x1 := Vec.add x0 (Vec.scale (1 / θ) z0)
    chebyshevSteps coef A InverseDiagonal θ ρ b 1 n x0 x1

/-- Modelled from the spec: `Ifpack_Chebyshev::Compute()`, whose body is missing.
It requires the Initialized state (section 4.4, precondition error otherwise, never
running Initialize itself), rejects `EigRatio ≤ 1` and a negative degree as
configuration errors (sections 4.3 and 7), rebuilds InverseDiagonal, takes LambdaMax
from the configuration or, when unset, from `PowerMethod`, reports `LambdaMax = 0`
(`θ = 0`) as a failure (section 4.3), and invalidates the cached condition estimate.
The power-method estimator is a parameter. The returned state is the object after the
call, unchanged on failure. -/
def Compute (PowerMethod : Operator → Vec → ℚ) (A : Operator) (s : State) :
    Status × State :=
  if s.IsInitialized_ = false then
    (.failed .precondition, s)
  else if s.EigRatio_ ≤ 1 then
    (.failed .configuration, s)
  else if s.PolyDegree_ < 0 then
    (.failed .configuration, s)
  else
    let InverseDiagonal := DiagonalExtractor s.MinDiagonalValue_ A.diagonal
    let LambdaMax :=
      match s.ConfiguredLambdaMax with
      | some l => l
      | none => PowerMethod A InverseDiagonal
    if LambdaMax = 0 then
      (.failed .numerical, s)
    else
      (.ok,
        { s with
          IsComputed_ := true
          NumCompute_ := s.NumCompute_ + 1
          InvDiagonal_ := some InverseDiagonal
          LambdaMax_ := LambdaMax
          Condest_ := -1 })

/-- The result of `ApplyInverse(X, Y)`: the reported status, the object after the
call (only the advisory counter may differ) and the in-out vector `Y` after the
call. -/
structure ApplyResult where
  status : Status
  state : State
  Y : Vec

/-- Modelled from the spec: `Ifpack_Chebyshev::ApplyInverse(X, Y)`, whose body is
missing. It requires the Computed state (section 4.4, precondition error otherwise),
starts from the zero vector if ZeroStartingSolution and from the caller's `Y`
otherwise, applies `A^T` in transpose mode, and runs the ChebyshevIterator on the
interval `[LambdaMax/EigRatio, LambdaMax]` with the stored degree and inverse
diagonal. On failure `Y` and the object are left as they were. -/
def ApplyInverse (coef : Coefficients) (A : Operator) (s : State) (X Y : Vec) :
    ApplyResult :=
  if s.IsComputed_ = false then
    { status := .failed .precondition, state := s, Y := Y }
  else
    match s.InvDiagonal_ with
    | none => { status := .failed .precondition, state := s, Y := Y }
    | some InverseDiagonal =>
      let x0 := if s.ZeroStartingSolution_ then Vec.zeroLike Y else Y
      let op := if s.UseTranspose_ then A.applyTranspose else A.apply
      { status := .ok
        state := { s with NumApplyInverse_ := s.NumApplyInverse_ + 1 }
        Y := ChebyshevIterator coef op InverseDiagonal s.LambdaMax_ s.EigRatio_
              s.PolyDegree_.toNat s.ZeroStartingSolution_ X x0 }

end Ifpack_Chebyshev

/-! ## Concrete objects used to evaluate the definitions -/

namespace Piro

/-- A model evaluator with two parameters and three responses whose spaces are named
by strings. -/
def sampleModel : ModelEvaluator String where
  Np := 2
  Ng := 3
  get_p_space := fun l => "p" ++ toString l
  get_g_space := fun j => "g" ++ toString j
  get_x_space := "x"

/-- A solver over `sampleModel` with `num_p_ = 2`, `num_g_ = 3`, built by the
constructor that sets the sensitivity method to `NONE`. -/
def sampleSolver : TransientSolver String where
  model_ := sampleModel
  num_p_ := 2
  num_g_ := 3
  sensitivityMethod_ := .NONE

end Piro

namespace Ifpack_Chebyshev

/-- An initialized, not yet computed preconditioner with the configuration of the
specification's end-to-end scenario: EigRatio 2, LambdaMax 4 supplied, degree 1,
zero starting solution, MinDiagonalValue `1e-9`. -/
def scenarioState : State where
  IsInitialized_ := true
  IsComputed_ := false
  NumInitialize_ := 1
  NumCompute_ := 0
  NumApplyInverse_ := 0
  InitializeTime_ := 0
  ComputeTime_ := 0
  ApplyInverseTime_ := 0
  ComputeFlops_ := 0
  ApplyInverseFlops_ := 0
  PolyDegree_ := 1
  UseTranspose_ := false
  Condest_ := -1
  ComputeCondest_ := false
  EigRatio_ := 2
  LambdaMin_ := 0
  LambdaMax_ := 0
  MinDiagonalValue_ := 1 / 1000000000
  NumMyRows_ := 2
  NumMyNonzeros_ := 2
  NumGlobalRows_ := 2
  NumGlobalNonzeros_ := 2
  IsRowMatrix_ := true
  InvDiagonal_ := none
  ZeroStartingSolution_ := true
  ConfiguredLambdaMax := some 4

/-- A power-method stand-in that always answers 4. -/
def scenarioPowerMethod : Operator → Vec → ℚ := fun _ _ => 4

/-- Coefficients that are never consulted at degree 0 and 1. -/
def scenarioCoefficients : Coefficients where
  c := fun θ _ _ => 2 / θ
  d := fun _ _ _ => 0

/-- The preconditioner that `Compute` on `diag(2, 4)` leaves when the scenario is
configured with degree 0 and a caller-supplied starting solution. -/
def degreeZeroState : State :=
  (Compute scenarioPowerMethod (diagOperator [2, 4])
    { scenarioState with PolyDegree_ := 0, ZeroStartingSolution_ := false }).2

end Ifpack_Chebyshev

/-! ## Piro::TransientSolver: argument objects and the converged-model evaluation -/

namespace Piro

/-- Modelled from the spec: the derivative forms of `Thyra::ModelEvaluatorBase` that
`Piro_TransientSolver_Def.hpp` names; the enumeration is declared in Thyra, which is
missing. -/
inductive EDerivativeForm where
  | DERIV_LINEAR_OP
  | DERIV_MV_JACOBIAN_FORM
  | DERIV_MV_GRADIENT_FORM
  deriving DecidableEq, Repr

/-- Modelled from the spec: `Thyra::ModelEvaluatorBase::DerivativeSupport`, declared
in Thyra, which is missing: the set of derivative forms an argument supports, one
flag per form. -/
structure DerivativeSupport where
  linearOp : Bool
  mvJacobian : Bool
  mvGradient : Bool
  deriving DecidableEq, Repr

/-- The default-constructed `DerivativeSupport`: no form supported. -/
def DerivativeSupport.empty : DerivativeSupport :=
  { linearOp := false, mvJacobian := false, mvGradient := false }

/-- `DerivativeSupport::supports(form)`. -/
def DerivativeSupport.supports (s : DerivativeSupport) : EDerivativeForm → Bool
  | .DERIV_LINEAR_OP => s.linearOp
  | .DERIV_MV_JACOBIAN_FORM => s.mvJacobian
  | .DERIV_MV_GRADIENT_FORM => s.mvGradient

/-- `DerivativeSupport::plus(form)`. -/
def DerivativeSupport.plus (s : DerivativeSupport) : EDerivativeForm → DerivativeSupport
  | .DERIV_LINEAR_OP => { s with linearOp := true }
  | .DERIV_MV_JACOBIAN_FORM => { s with mvJacobian := true }
  | .DERIV_MV_GRADIENT_FORM => { s with mvGradient := true }

/-- `DerivativeSupport::none()`: true when no form is supported. -/
def DerivativeSupport.none (s : DerivativeSupport) : Bool :=
  !s.linearOp && !s.mvJacobian && !s.mvGradient

/-- Modelled from the spec: `Thyra::ModelEvaluatorBase::Derivative<Scalar>`, declared
in Thyra, which is missing: a derivative object holds a linear operator, a
multi-vector, or neither. -/
structure Derivative where
  hasLinearOp : Bool
  hasMultiVector : Bool
  deriving DecidableEq, Repr

/-- `Derivative::isEmpty()`: neither a linear operator nor a multi-vector is held. -/
def Derivative.isEmpty (d : Derivative) : Bool :=
  !d.hasLinearOp && !d.hasMultiVector

/-- Modelled from the spec: `Thyra::ModelEvaluatorBase::InArgs<Scalar>`, declared in
Thyra, which is missing: the description and the number of parameters. -/
structure InArgs where
  modelEvalDescription : String
  Np : Int

/-- The default-constructed `InArgsSetup`. -/
def InArgs.setup : InArgs :=
  { modelEvalDescription := "", Np := 0 }

/-- `InArgsSetup::setModelEvalDescription`. -/
def InArgs.setModelEvalDescription (a : InArgs) (d : String) : InArgs :=
  { a with modelEvalDescription := d }

/-- `InArgsSetup::set_Np`. -/
def InArgs.set_Np (a : InArgs) (Np : Int) : InArgs :=
  { a with Np := Np }

/-- Modelled from the spec: `Thyra::ModelEvaluatorBase::OutArgs<Scalar>`, declared in
Thyra, which is missing: the description, the numbers of parameters and responses,
the derivative supports, and the `DgDp` objects the caller has set. The range
assertions Thyra makes on the indices are not part of the record. -/
structure OutArgs where
  modelEvalDescription : String
  Np : Int
  Ng : Int
  supports_DfDp : Int → DerivativeSupport
  supports_DgDx : Int → DerivativeSupport
  supports_DgDp : Int → Int → DerivativeSupport
  get_DgDp : Int → Int → Derivative

/-- The default-constructed `OutArgsSetup`: no parameters, no responses, nothing
supported, every derivative object empty. -/
def OutArgs.setup : OutArgs where
  modelEvalDescription := ""
  Np := 0
  Ng := 0
  supports_DfDp := fun _ => DerivativeSupport.empty
  supports_DgDx := fun _ => DerivativeSupport.empty
  supports_DgDp := fun _ _ => DerivativeSupport.empty
  get_DgDp := fun _ _ => { hasLinearOp := false, hasMultiVector := false }

/-- `OutArgsSetup::setModelEvalDescription`. -/
def OutArgs.setModelEvalDescription (o : OutArgs) (d : String) : OutArgs :=
  { o with modelEvalDescription := d }

/-- `OutArgsSetup::set_Np_Ng`: stores the two counts and sizes the support tables
anew, with nothing supported. -/
def OutArgs.set_Np_Ng (o : OutArgs) (Np Ng : Int) : OutArgs :=
  { o with
    Np := Np
    Ng := Ng
    supports_DfDp := fun _ => DerivativeSupport.empty
    supports_DgDx := fun _ => DerivativeSupport.empty
    supports_DgDp := fun _ _ => DerivativeSupport.empty }

/-- `OutArgsSetup::setSupports(OUT_ARG_DgDp, j, l, support)`. -/
def OutArgs.setSupports_DgDp (o : OutArgs) (j l : Int) (support : DerivativeSupport) :
    OutArgs :=
  { o with
    supports_DgDp := fun j1 l1 => if j1 = j ∧ l1 = l then support else o.supports_DgDp j1 l1 }

/-- `TransientSolver::createInArgs()`; `description` is `this->description()`. -/
def TransientSolver.createInArgs {Space : Type} (self : TransientSolver Space)
    (description : String) : InArgs :=
  let inArgs := InArgs.setup
  let inArgs := inArgs.setModelEvalDescription description
  let inArgs := inArgs.set_Np self.num_p_
  inArgs

/-- `TransientSolver::createOutArgsImpl()`. `description` is `this->description()`,
`modelOutArgs` is `model_->createOutArgs()`, and `initCondOutArgs` is
`initialConditionModel_->createOutArgs()`, or `none` when `initialConditionModel_`
is null. The three `return outArgs` statements of the source are the three places
where `outArgs` is the value of a branch. -/
def TransientSolver.createOutArgsImpl {Space : Type} (self : TransientSolver Space)
    (description : String) (modelOutArgs : OutArgs) (initCondOutArgs : Option OutArgs) :
    OutArgs :=
  let outArgs := OutArgs.setup
  let outArgs := outArgs.setModelEvalDescription description
  -- One additional response slot for the solution vector
  let outArgs := outArgs.set_Np_Ng self.num_p_ (self.num_g_ + 1)
  if self.num_p_ > 0 then
    -- Only one parameter supported
    let l : Int := 0
    let initRejects : Bool :=
      match initCondOutArgs with
      | some ic =>
        !(ic.supports_DgDp (ic.Ng - 1) l).supports .DERIV_MV_JACOBIAN_FORM
      | Option.none => false
    if initRejects then
      outArgs
    else
      let model_dfdp_support := modelOutArgs.supports_DfDp l
      if !model_dfdp_support.supports .DERIV_MV_JACOBIAN_FORM then
        outArgs
      else
        -- Solution sensitivity
        let outArgs :=
          outArgs.setSupports_DgDp self.num_g_ l
            (DerivativeSupport.empty.plus .DERIV_MV_JACOBIAN_FORM)
        if self.num_g_ > 0 then
          -- Only one response supported
          let j : Int := 0
          let model_dgdx_support := modelOutArgs.supports_DgDx j
          if !model_dgdx_support.none then
            let model_dgdp_support := modelOutArgs.supports_DgDp j l
            -- Response sensitivity
            let dgdp_support := DerivativeSupport.empty
            let dgdp_support :=
              if model_dgdp_support.supports .DERIV_MV_JACOBIAN_FORM then
                dgdp_support.plus .DERIV_MV_JACOBIAN_FORM
              else dgdp_support
            let dgdp_support :=
              if model_dgdp_support.supports .DERIV_LINEAR_OP then
                dgdp_support.plus .DERIV_LINEAR_OP
              else dgdp_support
            outArgs.setSupports_DgDp j l dgdp_support
          else
            outArgs
        else
          outArgs
  else
    outArgs

/-- The values `k` takes in `for (int k = 0; k < n; k++)`, in order. -/
def loopIndices (n : Int) : List Int :=
  List.map Int.ofNat (List.range n.toNat)

/-- The test inside the sensitivity check of `evalConvergedModel`:
`!outArgs.supports(OUT_ARG_DgDp, j, i).none() && !outArgs.get_DgDp(j,i).isEmpty()`. -/
def sensitivityRequestedAt (outArgs : OutArgs) (j i : Int) : Bool :=
  !(outArgs.supports_DgDp j i).none && !(outArgs.get_DgDp j i).isEmpty

/-- The inner loop `for (int j=0; j<=num_g_; j++)` of the sensitivity check over the
remaining indices `js`: the first hit sets the flag and breaks out of this loop. -/
def innerSensitivityLoop (outArgs : OutArgs) (i : Int) : List Int → Bool → Bool
  | [], requestedSensitivities => requestedSensitivities
  | j :: js, requestedSensitivities =>
    if sensitivityRequestedAt outArgs j i then
      true
    else
      innerSensitivityLoop outArgs i js requestedSensitivities

/-- The flag `requestedSensitivities` after the two nested loops of
`evalConvergedModel`; `j <= num_g_` visits the indices below `num_g_ + 1`. -/
def TransientSolver.requestedSensitivities {Space : Type} (self : TransientSolver Space)
    (outArgs : OutArgs) : Bool :=
  (loopIndices self.num_p_).foldl
    (fun requested i =>
      innerSensitivityLoop outArgs i (loopIndices (self.num_g_ + 1)) requested)
    false

/-- What a call of `evalConvergedModel` did: how it ended, and whether it reached
`model_->evalModel`. -/
structure EvalRecord where
  outcome : Outcome Unit
  modelEvaluated : Bool
  deriving DecidableEq, Repr

/-- `TransientSolver::evalConvergedModel(modelInArgs, outArgs)`, up to the call of
`model_->evalModel`. When sensitivities are requested, the method `NONE` throws at
the first `TEUCHOS_TEST_FOR_EXCEPTION` and every other method at the second one.
Otherwise the response and derivative set-up follows, which has no throw site of its
own, and ends in `model_->evalModel`; it is recorded as `modelEvaluated`. -/
def TransientSolver.evalConvergedModel {Space : Type} (self : TransientSolver Space)
    (outArgs : OutArgs) : EvalRecord :=
  if self.requestedSensitivities outArgs = true then
    if self.sensitivityMethod_ = .NONE then
      { outcome := .thrown .InvalidParameter, modelEvaluated := false }
    else
      { outcome := .thrown .InvalidParameter, modelEvaluated := false }
  else
    { outcome := .returned (), modelEvaluated := true }

/-- The `OutArgs` of a model that supports every derivative in Jacobian form. -/
def sampleModelOutArgs : OutArgs where
  modelEvalDescription := "model"
  Np := 2
  Ng := 3
  supports_DfDp := fun _ => DerivativeSupport.empty.plus .DERIV_MV_JACOBIAN_FORM
  supports_DgDx := fun _ => DerivativeSupport.empty.plus .DERIV_MV_JACOBIAN_FORM
  supports_DgDp := fun _ _ => DerivativeSupport.empty.plus .DERIV_MV_JACOBIAN_FORM
  get_DgDp := fun _ _ => { hasLinearOp := false, hasMultiVector := false }

/-- The `OutArgs` of `sampleSolver` in which the caller has set the `DgDp(3, 0)`
object, the sensitivity of the solution slot with respect to parameter 0. -/
def sampleRequestOutArgs : OutArgs :=
  { sampleSolver.createOutArgsImpl "solver" sampleModelOutArgs Option.none with
    get_DgDp := fun j i =>
      if j = 3 ∧ i = 0 then { hasLinearOp := false, hasMultiVector := true }
      else { hasLinearOp := false, hasMultiVector := false } }

end Piro

/-! ## Ifpack_Chebyshev: inline members of the header and construction -/

namespace Ifpack_Chebyshev

/-- `Ifpack_Chebyshev::SetUseTranspose(bool)` (header lines 81 to 85): the returned
error code and the object after the call. -/
def SetUseTranspose (s : State) (UseTranspose : Bool) : Int × State :=
  (0, { s with UseTranspose_ := UseTranspose })

/-- `Ifpack_Chebyshev::UseTranspose()` (header lines 130 to 133). -/
def UseTranspose (s : State) : Bool := s.UseTranspose_

/-- `Ifpack_Chebyshev::Condest() const` (header lines 182 to 185): the returned value
and the object after the call. -/
def Condest (s : State) : ℚ × State := (s.Condest_, s)

/-- Modelled from the spec: the constructor `Ifpack_Chebyshev(const Epetra_Operator*)`,
whose body is missing. The object starts Uninitialized with zero counters and
timings and no inverse diagonal (sections 3 and 4.4), with the defaults of the
configuration table (section 6: eigenvalue ratio 30, max eigenvalue unset, zero
starting solution), and with no condition estimate, which the header documents as
the value `-1.0`. The fields whose initial value neither the specification nor the
header fixes are taken from `unspecified`. -/
def construct (unspecified : State) : State :=
  { unspecified with
    IsInitialized_ := false
    IsComputed_ := false
    NumInitialize_ := 0
    NumCompute_ := 0
    NumApplyInverse_ := 0
    InitializeTime_ := 0
    ComputeTime_ := 0
    ApplyInverseTime_ := 0
    ComputeFlops_ := 0
    ApplyInverseFlops_ := 0
    Condest_ := -1
    EigRatio_ := 30
    InvDiagonal_ := none
    ZeroStartingSolution_ := true
    ConfiguredLambdaMax := none }

/-- Modelled from the spec: what `Initialize` reads from the operator (sections 2
and 4.4): its row and nonzero counts, and whether its row, column, range and domain
maps are consistent. -/
structure OperatorShape where
  NumMyRows : Int
  NumMyNonzeros : Int
  NumGlobalRows : Int
  NumGlobalNonzeros : Int
  mapsConsistent : Bool

/-- Modelled from the spec: `Ifpack_Chebyshev::Initialize()`, whose body is missing.
It validates the operator's shape and reports a shape mismatch as a configuration
error (sections 4.4 and 7); on success it records the row and nonzero counts
(section 2) and leaves the object Initialized, a re-Initialize freeing the inverse
diagonal so that the object is no longer Computed (section 3). The call counter
follows the header's documentation of `NumInitialize_`, the number of successful
calls; the counters section 4.4 says are reset are read as the recorded counts. The
returned state is the object after the call, unchanged on failure. -/
def Initialize (shape : OperatorShape) (s : State) : Status × State :=
  if shape.mapsConsistent = false then
    (.failed .configuration, s)
  else
    (.ok,
      { s with
        IsInitialized_ := true
        IsComputed_ := false
        NumInitialize_ := s.NumInitialize_ + 1
        NumMyRows_ := shape.NumMyRows
        NumMyNonzeros_ := shape.NumMyNonzeros
        NumGlobalRows_ := shape.NumGlobalRows
        NumGlobalNonzeros_ := shape.NumGlobalNonzeros
        InvDiagonal_ := none })

/-- A call on the preconditioner that computes no condition estimate: the exposed
operations of the specification (section 6) and the inline members of the header,
other than `Condest(CT, MaxIters, Tol, Matrix)`. Each call carries its own
arguments, so the operator may change between calls. -/
inductive Call where
  | init (shape : OperatorShape)
  | setUseTranspose (UseTranspose : Bool)
  | compute (PowerMethod : Operator → Vec → ℚ) (A : Operator)
  | applyInverse (coef : Coefficients) (A : Operator) (X Y : Vec)
  | condest

/-- The object after one call. -/
def Call.run : Call → State → State
  | .init shape, s => (Initialize shape s).2
  | .setUseTranspose b, s => (SetUseTranspose s b).2
  | .compute PowerMethod A, s => (Compute PowerMethod A s).2
  | .applyInverse coef A X Y, s => (ApplyInverse coef A s X Y).state
  | .condest, s => (Condest s).2

/-- The object after a sequence of calls, first call first. -/
def runCalls (calls : List Call) (s : State) : State :=
  calls.foldl (fun st c => c.run st) s

/-- The shape of the two-row diagonal operator `diag(2, 4)`. -/
def scenarioShape : OperatorShape where
  NumMyRows := 2
  NumMyNonzeros := 2
  NumGlobalRows := 2
  NumGlobalNonzeros := 2
  mapsConsistent := true

/-- The end-to-end scenario with a caller-supplied starting solution instead of the
zero start. -/
def callerStartState : State :=
  { scenarioState with ZeroStartingSolution_ := false }

/-- A full lifecycle on a freshly constructed object: Initialize, Compute on
`diag(2, 4)`, one ApplyInverse, a transpose switch and a read of the estimate. -/
def scenarioCalls : List Call :=
  [.init scenarioShape,
   .compute scenarioPowerMethod (diagOperator [2, 4]),
   .applyInverse scenarioCoefficients (diagOperator [2, 4]) [1, 1] [7, 9],
   .setUseTranspose true,
   .condest]

end Ifpack_Chebyshev

/-! ## Theorems: Piro::TransientSolver -/

namespace Piro

/-- C7: `get_g_space(j)` raises InvalidParameter if and only if `j < 0` or
`j > num_g`; for `0 ≤ j < num_g` it returns the model's response space `j`, and for
`j = num_g`, when that index is not negative, it returns the model's state space. -/
theorem get_g_space_spec {Space : Type} (self : TransientSolver Space) (j : Int) :
    (self.get_g_space j = .thrown .InvalidParameter ↔ (j < 0 ∨ j > self.num_g_)) ∧
    (0 ≤ j → j < self.num_g_ →
      self.get_g_space j = .returned (self.model_.get_g_space j)) ∧
    (0 ≤ j → j = self.num_g_ →
      self.get_g_space j = .returned self.model_.get_x_space) := by
  refine ⟨?_, ?_, ?_⟩
  · unfold TransientSolver.get_g_space
    constructor
    · intro h
      by_contra hn
      have hc : ¬ (j > self.num_g_ ∨ j < 0) := fun h1 => hn (Or.symm h1)
      rw [if_neg hc] at h
      split_ifs at h
    · intro h
      rw [if_pos (Or.symm h)]
  · intro h0 h1
    unfold TransientSolver.get_g_space
    have hc : ¬ (j > self.num_g_ ∨ j < 0) := by omega
    rw [if_neg hc, if_pos h1]
  · intro h0 h1
    unfold TransientSolver.get_g_space
    have hc : ¬ (j > self.num_g_ ∨ j < 0) := by omega
    have hlt : ¬ (j < self.num_g_) := by omega
    rw [if_neg hc, if_neg hlt]

/-- Witness for C7 on `sampleSolver` (`num_g_ = 3`): index 3 is the extra solution
slot and yields the state space, index 1 yields response space 1. -/
theorem get_g_space_spec_witness :
    sampleSolver.get_g_space 3 = .returned "x" ∧
    sampleSolver.get_g_space 1 = .returned (sampleModel.get_g_space 1) :=
  ⟨(get_g_space_spec sampleSolver 3).2.2 (by decide) rfl,
   (get_g_space_spec sampleSolver 1).2.1 (by decide) (by decide)⟩

/-- C8: `get_p_space(l)` raises InvalidParameter if and only if `l < 0` or
`l ≥ num_p`; for `0 ≤ l < num_p` it returns the model's parameter space `l`. -/
theorem get_p_space_spec {Space : Type} (self : TransientSolver Space) (l : Int) :
    (self.get_p_space l = .thrown .InvalidParameter ↔ (l < 0 ∨ l ≥ self.num_p_)) ∧
    (0 ≤ l → l < self.num_p_ →
      self.get_p_space l = .returned (self.model_.get_p_space l)) := by
  refine ⟨?_, ?_⟩
  · unfold TransientSolver.get_p_space
    constructor
    · intro h
      by_contra hn
      have hc : ¬ (l ≥ self.num_p_ ∨ l < 0) := fun h1 => hn (Or.symm h1)
      rw [if_neg hc] at h
      cases h
    · intro h
      rw [if_pos (Or.symm h)]
  · intro h0 h1
    unfold TransientSolver.get_p_space
    have hc : ¬ (l ≥ self.num_p_ ∨ l < 0) := by omega
    rw [if_neg hc]

/-- Witness for C8 on `sampleSolver` (`num_p_ = 2`): index 1 yields the model's
parameter space 1. -/
theorem get_p_space_spec_witness :
    sampleSolver.get_p_space 1 = .returned (sampleModel.get_p_space 1) :=
  (get_p_space_spec sampleSolver 1).2 (by decide) (by decide)

/-- C9, as stated, fails: "Adjoint" is one of the three listed strings, yet
`setSensitivityMethod("Adjoint")` raises InvalidParameter. -/
theorem setSensitivityMethod_adjoint_raises :
    ¬ ((sampleSolver.setSensitivityMethod "Adjoint").2 = .thrown .InvalidParameter ↔
        ("Adjoint" ≠ "None" ∧ "Adjoint" ≠ "Forward" ∧ "Adjoint" ≠ "Adjoint")) := by
  intro h
  have hthrow :
      (sampleSolver.setSensitivityMethod "Adjoint").2 = .thrown .InvalidParameter := by
    decide
  exact (h.mp hthrow).2.2 rfl

/-- C9, amended: for every string `s`, `setSensitivityMethod(s)` raises
InvalidParameter if and only if `s` is neither "None" nor "Forward"; the recognised
string "Adjoint" is rejected too, by the not-yet-supported guard. -/
theorem setSensitivityMethod_raises_iff {Space : Type} (self : TransientSolver Space)
    (s : String) :
    (self.setSensitivityMethod s).2 = .thrown .InvalidParameter ↔
      (s ≠ "None" ∧ s ≠ "Forward") := by
  unfold TransientSolver.setSensitivityMethod
  by_cases h1 : s = "None"
  · subst h1
    simp
  · by_cases h2 : s = "Forward"
    · subst h2
      simp
    · by_cases h3 : s = "Adjoint"
      · subst h3
        simp
      · simp [h1, h2, h3]

/-- C10: whatever the method was before, `setSensitivityMethod("None")` returns
normally and `getSensitivityMethod()` then gives 0, and
`setSensitivityMethod("Forward")` returns normally and `getSensitivityMethod()` then
gives 1. -/
theorem set_get_sensitivityMethod {Space : Type} (self : TransientSolver Space) :
    (self.setSensitivityMethod "None").2 = .returned () ∧
    (self.setSensitivityMethod "None").1.getSensitivityMethod = 0 ∧
    (self.setSensitivityMethod "Forward").2 = .returned () ∧
    (self.setSensitivityMethod "Forward").1.getSensitivityMethod = 1 := by
  simp [TransientSolver.setSensitivityMethod, TransientSolver.getSensitivityMethod,
    SENS_METHOD.toInt]

end Piro

/-! ## Theorems: Ifpack_Chebyshev -/

namespace Ifpack_Chebyshev

/-- What a successful `Compute` establishes: the lifecycle and configuration checks
passed, and the object afterwards holds the rebuilt inverse diagonal, a nonzero
`LambdaMax_` and the untouched polynomial configuration. -/
theorem Compute_ok_fields (PowerMethod : Operator → Vec → ℚ) (A : Operator) (s : State)
    (hok : (Compute PowerMethod A s).1 = .ok) :
    s.IsInitialized_ = true ∧ 1 < s.EigRatio_ ∧ 0 ≤ s.PolyDegree_ ∧
    (Compute PowerMethod A s).2.IsComputed_ = true ∧
    (Compute PowerMethod A s).2.InvDiagonal_ =
      some (DiagonalExtractor s.MinDiagonalValue_ A.diagonal) ∧
    (Compute PowerMethod A s).2.LambdaMax_ ≠ 0 ∧
    (Compute PowerMethod A s).2.EigRatio_ = s.EigRatio_ ∧
    (Compute PowerMethod A s).2.PolyDegree_ = s.PolyDegree_ ∧
    (Compute PowerMethod A s).2.ZeroStartingSolution_ = s.ZeroStartingSolution_ ∧
    (Compute PowerMethod A s).2.UseTranspose_ = s.UseTranspose_ := by
  unfold Compute at hok ⊢
  by_cases h1 : s.IsInitialized_ = false
  · rw [if_pos h1] at hok
    cases hok
  · rw [if_neg h1] at hok ⊢
    by_cases h2 : s.EigRatio_ ≤ 1
    · rw [if_pos h2] at hok
      cases hok
    · rw [if_neg h2] at hok ⊢
      by_cases h3 : s.PolyDegree_ < 0
      · rw [if_pos h3] at hok
        cases hok
      · rw [if_neg h3] at hok ⊢
        simp only at hok ⊢
        split_ifs at hok ⊢ with h4
        exact ⟨by simpa using h1, lt_of_not_ge h2, le_of_not_gt h3, rfl, rfl, h4,
          rfl, rfl, rfl, rfl⟩

/-- The inverse of a diagonal entry that the floor does not touch. -/
theorem invertDiagonalEntry_of_floor_le (m d : ℚ) (h : m ≤ |d|) :
    invertDiagonalEntry m d = 1 / d := by
  unfold invertDiagonalEntry sign
  rw [max_eq_left h]
  by_cases hd : d < 0
  · rw [if_pos hd, abs_of_neg hd]
    have : d ≠ 0 := ne_of_lt hd
    field_simp
  · rw [if_neg hd]
    have h0 : 0 ≤ d := le_of_not_gt hd
    rw [abs_of_nonneg h0]

/-- The inverse of a diagonal entry below the floor. -/
theorem invertDiagonalEntry_of_lt_floor (m d : ℚ) (h : |d| < m) :
    invertDiagonalEntry m d = sign d / m := by
  unfold invertDiagonalEntry
  rw [max_eq_right (le_of_lt h)]

/-- C1: after a successful `Compute` with `MinDiagonalValue > 0`, for every local
row `i` with diagonal entry `d`, `InverseDiagonal[i] = sign(d) / max(|d|,
MinDiagonalValue)` with `sign(0) = +1`; it is `sign(d)/MinDiagonalValue` when
`|d| < MinDiagonalValue` (so `1/MinDiagonalValue` for `d = 0`), and `1/d` when
`|d| ≥ MinDiagonalValue`. -/
theorem Compute_InverseDiagonal_floor (PowerMethod : Operator → Vec → ℚ) (A : Operator)
    (s : State) (hok : (Compute PowerMethod A s).1 = .ok)
    (hm : 0 < s.MinDiagonalValue_) :
    sign 0 = 1 ∧
    ∃ inv : Vec, (Compute PowerMethod A s).2.InvDiagonal_ = some inv ∧
      inv.length = A.diagonal.length ∧
      ∀ (i : Nat) (d : ℚ), A.diagonal[i]? = some d →
        inv[i]? = some (sign d / max |d| s.MinDiagonalValue_) ∧
        (|d| < s.MinDiagonalValue_ → inv[i]? = some (sign d / s.MinDiagonalValue_)) ∧
        (d = 0 → inv[i]? = some (1 / s.MinDiagonalValue_)) ∧
        (s.MinDiagonalValue_ ≤ |d| → inv[i]? = some (1 / d)) := by
  refine ⟨by simp [sign], DiagonalExtractor s.MinDiagonalValue_ A.diagonal,
    (Compute_ok_fields PowerMethod A s hok).2.2.2.2.1, by simp [DiagonalExtractor], ?_⟩
  intro i d hd
  have hi : (DiagonalExtractor s.MinDiagonalValue_ A.diagonal)[i]? =
      some (invertDiagonalEntry s.MinDiagonalValue_ d) := by
    simp [DiagonalExtractor, hd]
  refine ⟨by rw [hi]; rfl, ?_, ?_, ?_⟩
  · intro hlt
    rw [hi, invertDiagonalEntry_of_lt_floor _ _ hlt]
  · intro h0
    subst h0
    rw [hi, invertDiagonalEntry_of_lt_floor _ _ (by simpa using hm)]
    simp [sign]
  · intro hle
    rw [hi, invertDiagonalEntry_of_floor_le _ _ hle]

/-- Witness for C1: on `diag(0, 4, -1/10000000000)` with floor `1e-9` the first and
third entries are floored and the second is inverted. -/
theorem Compute_InverseDiagonal_floor_witness :
    (Compute scenarioPowerMethod (diagOperator [0, 4, -1 / 10000000000]) scenarioState).1
      = .ok ∧
    0 < scenarioState.MinDiagonalValue_ ∧
    (Compute scenarioPowerMethod (diagOperator [0, 4, -1 / 10000000000])
      scenarioState).2.InvDiagonal_ = some [1000000000, 1 / 4, -1000000000] ∧
    (sign 0 = 1 ∧
      ∃ inv : Vec,
        (Compute scenarioPowerMethod (diagOperator [0, 4, -1 / 10000000000])
          scenarioState).2.InvDiagonal_ = some inv ∧
        inv.length = (diagOperator [0, 4, -1 / 10000000000]).diagonal.length ∧
        ∀ (i : Nat) (d : ℚ),
          (diagOperator [0, 4, -1 / 10000000000]).diagonal[i]? = some d →
          inv[i]? = some (sign d / max |d| scenarioState.MinDiagonalValue_) ∧
          (|d| < scenarioState.MinDiagonalValue_ →
            inv[i]? = some (sign d / scenarioState.MinDiagonalValue_)) ∧
          (d = 0 → inv[i]? = some (1 / scenarioState.MinDiagonalValue_)) ∧
          (scenarioState.MinDiagonalValue_ ≤ |d| → inv[i]? = some (1 / d))) :=
  ⟨by norm_num [Compute, scenarioState],
   by norm_num [scenarioState],
   by norm_num [Compute, scenarioState, DiagonalExtractor, invertDiagonalEntry, sign,
        diagOperator, abs_of_neg],
   Compute_InverseDiagonal_floor scenarioPowerMethod
     (diagOperator [0, 4, -1 / 10000000000]) scenarioState
     (by norm_num [Compute, scenarioState]) (by norm_num [scenarioState])⟩

/-- Subtracting the operator applied to the zero start changes nothing, for vectors
of the operator's shape: the zero-start fast path agrees with `r₀ = b − A·x₀`. -/
theorem sub_diag_zeroLike (d b Y : Vec) (hb : b.length = d.length)
    (hY : Y.length = d.length) :
    Vec.sub b (Vec.had d (Vec.zeroLike Y)) = b := by
  unfold Vec.sub Vec.had Vec.zeroLike
  apply List.ext_getElem
  · simp [hb, hY]
  · intro i h1 h2
    simp

/-- On a positive diagonal that the floor does not touch, the DiagonalExtractor
returns the entrywise reciprocal. -/
theorem DiagonalExtractor_eq_reciprocal (m : ℚ) (d : Vec) (hpos : ∀ v ∈ d, 0 < v)
    (hfloor : ∀ v ∈ d, m ≤ v) :
    DiagonalExtractor m d = d.map (fun v => 1 / v) := by
  unfold DiagonalExtractor
  apply List.map_congr_left
  intro v hv
  apply invertDiagonalEntry_of_floor_le
  rw [abs_of_pos (hpos v hv)]
  exact hfloor v hv

/-- The degree-1 result on `diag(d)` as a vector equation between the iterator's
vector operations; the entrywise form follows from it. -/
theorem ApplyInverse_degree_one_vector (PowerMethod : Operator → Vec → ℚ)
    (coef : Coefficients) (d b Y : Vec) (s0 s : State)
    (hC : Compute PowerMethod (diagOperator d) s0 = (.ok, s))
    (hdeg : s0.PolyDegree_ = 1)
    (hpos : ∀ v ∈ d, 0 < v) (hfloor : ∀ v ∈ d, s0.MinDiagonalValue_ ≤ v)
    (hb : b.length = d.length) (hY : Y.length = d.length) :
    s.InvDiagonal_ = some (d.map (fun v => 1 / v)) ∧
    (ApplyInverse coef (diagOperator d) s b Y).status = .ok ∧
    (ApplyInverse coef (diagOperator d) s b Y).Y =
      Vec.add (if s.ZeroStartingSolution_ then Vec.zeroLike Y else Y)
        (Vec.scale (1 / ((s.LambdaMax_ + s.LambdaMax_ / s.EigRatio_) / 2))
          (Vec.had (d.map (fun v => 1 / v))
            (Vec.sub b ((diagOperator d).apply
              (if s.ZeroStartingSolution_ then Vec.zeroLike Y else Y))))) := by
  have hok : (Compute PowerMethod (diagOperator d) s0).1 = .ok := by rw [hC]
  have hf := Compute_ok_fields PowerMethod (diagOperator d) s0 hok
  rw [hC] at hf
  obtain ⟨-, -, -, hcomp, hinv, -, -, hpd, -, -⟩ := hf
  simp only at hcomp hinv hpd
  have hinv2 : s.InvDiagonal_ = some (d.map (fun v => 1 / v)) := by
    rw [hinv]
    show some (DiagonalExtractor s0.MinDiagonalValue_ d) = _
    rw [DiagonalExtractor_eq_reciprocal _ _ hpos hfloor]
  have hone : s.PolyDegree_.toNat = 1 := by rw [hpd, hdeg]; rfl
  refine ⟨hinv2, ?_, ?_⟩
  · unfold ApplyInverse
    simp [hcomp, hinv2]
  · unfold ApplyInverse
    simp only [hcomp, hinv2, hone, Bool.true_eq_false, if_false]
    unfold ChebyshevIterator chebyshevSteps theta
    simp only [diagOperator, ite_self]
    cases hz : s.ZeroStartingSolution_
    · simp
    · simp only [if_true]
      rw [sub_diag_zeroLike d b Y hb hY]

/-- The computed preconditioner of the end-to-end scenario: `Compute` on
`diag(2, 4)` from `scenarioState`. -/
theorem scenario_Compute :
    Compute scenarioPowerMethod (diagOperator [2, 4]) scenarioState =
      (.ok, (Compute scenarioPowerMethod (diagOperator [2, 4]) scenarioState).2) :=
  Prod.ext (by norm_num [Compute, scenarioState]) rfl

/-- C2: for the diagonal operator `A = diag(d)` with all `d_i > 0` and no flooring
triggered (`MinDiagonalValue ≤ d_i`), after a successful `Compute` every entry of
the inverse diagonal is `1/d_i`, and `ApplyInverse` with degree 1 succeeds and
returns, in every row `i`, `x₁ᵢ = x₀ᵢ + (1/θ)·(1/d_i)·(b_i − d_i·x₀ᵢ)` with
`θ = (LambdaMax + LambdaMax/EigRatio)/2`, for every right-hand side `b` and start
`x₀` of the operator's shape (`x₀` is zero under ZeroStartingSolution and the
caller's vector otherwise). -/
theorem ApplyInverse_degree_one_jacobi (PowerMethod : Operator → Vec → ℚ)
    (coef : Coefficients) (d b Y : Vec) (s0 s : State)
    (hC : Compute PowerMethod (diagOperator d) s0 = (.ok, s))
    (hdeg : s0.PolyDegree_ = 1)
    (hpos : ∀ v ∈ d, 0 < v) (hfloor : ∀ v ∈ d, s0.MinDiagonalValue_ ≤ v)
    (hb : b.length = d.length) (hY : Y.length = d.length) :
    (∃ inv : Vec, s.InvDiagonal_ = some inv ∧ inv.length = d.length ∧
      ∀ (i : Nat) (di : ℚ), d[i]? = some di → inv[i]? = some (1 / di)) ∧
    (ApplyInverse coef (diagOperator d) s b Y).status = .ok ∧
    (ApplyInverse coef (diagOperator d) s b Y).Y.length = d.length ∧
    ∀ (i : Nat) (di bi yi : ℚ), d[i]? = some di → b[i]? = some bi → Y[i]? = some yi →
      (ApplyInverse coef (diagOperator d) s b Y).Y[i]? =
        some ((if s.ZeroStartingSolution_ = true then 0 else yi) +
          1 / ((s.LambdaMax_ + s.LambdaMax_ / s.EigRatio_) / 2) *
            (1 / di * (bi - di * (if s.ZeroStartingSolution_ = true then 0 else yi)))) := by
  obtain ⟨hinv, hstatus, hvec⟩ :=
    ApplyInverse_degree_one_vector PowerMethod coef d b Y s0 s hC hdeg hpos hfloor hb hY
  refine ⟨⟨d.map (fun v => 1 / v), hinv, by simp, ?_⟩, hstatus, ?_, ?_⟩
  · intro i di hdi
    simp [hdi]
  · rw [hvec]
    cases s.ZeroStartingSolution_ <;>
      simp [Vec.add, Vec.scale, Vec.had, Vec.sub, Vec.zeroLike, diagOperator, hb, hY]
  · intro i di bi yi hdi hbi hyi
    have hz : (Vec.zeroLike Y)[i]? = some 0 := by
      unfold Vec.zeroLike
      rw [List.getElem?_map, hyi]
      rfl
    rw [hvec]
    cases s.ZeroStartingSolution_
    · simp [Vec.add, Vec.scale, Vec.had, Vec.sub, diagOperator,
        List.getElem?_zipWith, hdi, hbi, hyi]
    · simp [Vec.add, Vec.scale, Vec.had, Vec.sub, diagOperator,
        List.getElem?_zipWith, hdi, hbi, hz]

/-- The computed preconditioner of the scenario with a caller-supplied start. -/
theorem callerStart_Compute :
    Compute scenarioPowerMethod (diagOperator [2, 4]) callerStartState =
      (.ok, (Compute scenarioPowerMethod (diagOperator [2, 4]) callerStartState).2) :=
  Prod.ext (by norm_num [Compute, callerStartState, scenarioState]) rfl

/-- Witness for C2. The end-to-end scenario `A = diag(2, 4)`, `b = (1, 1)`,
EigRatio 2, LambdaMax 4 gives InverseDiagonal `(1/2, 1/4)` and `θ = 3`; with the zero
start the result is `(1/6, 1/12)`, and with the caller's start `(7, 9)` the residual
`b − A·x₀ = (−13, −35)` gives `(29/6, 73/12)`. The last four conjuncts are the
entrywise formula of C2 at rows 0 and 1 for each start. -/
theorem ApplyInverse_degree_one_jacobi_witness :
    (Compute scenarioPowerMethod (diagOperator [2, 4]) scenarioState).2.InvDiagonal_ =
      some [1 / 2, 1 / 4] ∧
    theta (Compute scenarioPowerMethod (diagOperator [2, 4]) scenarioState).2.LambdaMax_
      (Compute scenarioPowerMethod (diagOperator [2, 4]) scenarioState).2.EigRatio_ = 3 ∧
    (ApplyInverse scenarioCoefficients (diagOperator [2, 4])
      (Compute scenarioPowerMethod (diagOperator [2, 4]) scenarioState).2
      [1, 1] [7, 9]).Y = [1 / 6, 1 / 12] ∧
    (ApplyInverse scenarioCoefficients (diagOperator [2, 4])
      (Compute scenarioPowerMethod (diagOperator [2, 4]) callerStartState).2
      [1, 1] [7, 9]).Y = [29 / 6, 73 / 12] ∧
    (ApplyInverse scenarioCoefficients (diagOperator [2, 4])
      (Compute scenarioPowerMethod (diagOperator [2, 4]) scenarioState).2
      [1, 1] [7, 9]).Y[0]? = some (1 / 6) ∧
    (ApplyInverse scenarioCoefficients (diagOperator [2, 4])
      (Compute scenarioPowerMethod (diagOperator [2, 4]) scenarioState).2
      [1, 1] [7, 9]).Y[1]? = some (1 / 12) ∧
    (ApplyInverse scenarioCoefficients (diagOperator [2, 4])
      (Compute scenarioPowerMethod (diagOperator [2, 4]) callerStartState).2
      [1, 1] [7, 9]).Y[0]? = some (29 / 6) ∧
    (ApplyInverse scenarioCoefficients (diagOperator [2, 4])
      (Compute scenarioPowerMethod (diagOperator [2, 4]) callerStartState).2
      [1, 1] [7, 9]).Y[1]? = some (73 / 12) :=
  have hz := ApplyInverse_degree_one_jacobi scenarioPowerMethod scenarioCoefficients
    [2, 4] [1, 1] [7, 9] scenarioState
    (Compute scenarioPowerMethod (diagOperator [2, 4]) scenarioState).2
    scenario_Compute rfl (by norm_num) (by norm_num [scenarioState]) rfl rfl
  have hc := ApplyInverse_degree_one_jacobi scenarioPowerMethod scenarioCoefficients
    [2, 4] [1, 1] [7, 9] callerStartState
    (Compute scenarioPowerMethod (diagOperator [2, 4]) callerStartState).2
    callerStart_Compute rfl (by norm_num)
    (by norm_num [callerStartState, scenarioState]) rfl rfl
  ⟨by norm_num [Compute, scenarioState, DiagonalExtractor, invertDiagonalEntry, sign,
      diagOperator],
   by norm_num [Compute, scenarioState, theta],
   by norm_num [ApplyInverse, ChebyshevIterator, chebyshevSteps, theta, Compute,
      scenarioState, DiagonalExtractor, invertDiagonalEntry, sign, Vec.add, Vec.scale,
      Vec.had, Vec.sub, Vec.zeroLike, diagOperator],
   by norm_num [ApplyInverse, ChebyshevIterator, chebyshevSteps, theta, Compute,
      callerStartState, scenarioState, DiagonalExtractor, invertDiagonalEntry, sign,
      Vec.add, Vec.scale, Vec.had, Vec.sub, Vec.zeroLike, diagOperator],
   (hz.2.2.2 0 2 1 7 rfl rfl rfl).trans (by norm_num [Compute, scenarioState]),
   (hz.2.2.2 1 4 1 9 rfl rfl rfl).trans (by norm_num [Compute, scenarioState]),
   (hc.2.2.2 0 2 1 7 rfl rfl rfl).trans
     (by norm_num [Compute, callerStartState, scenarioState]),
   (hc.2.2.2 1 4 1 9 rfl rfl rfl).trans
     (by norm_num [Compute, callerStartState, scenarioState])⟩

/-- C3: for every computed preconditioner with polynomial degree 0, every right-hand
side `X` and every caller vector `Y`, `ApplyInverse` succeeds and the solution vector
afterwards is the starting vector `x₀` (the zero vector under ZeroStartingSolution,
the caller's `Y` otherwise) unchanged; with a caller-supplied start the in-out
vector is left exactly as it was. -/
theorem ApplyInverse_degree_zero (coef : Coefficients) (A : Operator) (s : State)
    (X Y : Vec) (hc : s.IsComputed_ = true) (hd : s.InvDiagonal_.isSome = true)
    (h0 : s.PolyDegree_ = 0) :
    (ApplyInverse coef A s X Y).status = .ok ∧
    (ApplyInverse coef A s X Y).Y =
      (if s.ZeroStartingSolution_ then Vec.zeroLike Y else Y) ∧
    (s.ZeroStartingSolution_ = false → (ApplyInverse coef A s X Y).Y = Y) := by
  obtain ⟨inv, hinv⟩ := Option.isSome_iff_exists.mp hd
  have hY : (ApplyInverse coef A s X Y).Y =
      (if s.ZeroStartingSolution_ then Vec.zeroLike Y else Y) := by
    unfold ApplyInverse
    simp only [hc, hinv, h0, Bool.true_eq_false, if_false]
    rfl
  refine ⟨?_, hY, ?_⟩
  · unfold ApplyInverse
    simp [hc, hinv]
  · intro hz
    rw [hY, hz]
    rfl

/-- Witness for C3: on `diag(2, 4)` with degree 0 and the caller's start `(7, 9)`,
`ApplyInverse` succeeds and returns `(7, 9)`. -/
theorem ApplyInverse_degree_zero_witness :
    (ApplyInverse scenarioCoefficients (diagOperator [2, 4]) degreeZeroState
      [1, 1] [7, 9]).status = .ok ∧
    (ApplyInverse scenarioCoefficients (diagOperator [2, 4]) degreeZeroState
      [1, 1] [7, 9]).Y = [7, 9] :=
  have h := ApplyInverse_degree_zero scenarioCoefficients (diagOperator [2, 4])
    degreeZeroState [1, 1] [7, 9]
    (by norm_num [degreeZeroState, Compute, scenarioState])
    (by norm_num [degreeZeroState, Compute, scenarioState])
    (by norm_num [degreeZeroState, Compute, scenarioState])
  ⟨h.1, h.2.2 (by norm_num [degreeZeroState, Compute, scenarioState])⟩

/-- C4: lifecycle preconditions are enforced and never repaired. `ApplyInverse` on a
preconditioner that is not computed reports a precondition error and leaves the
solution vector and the object as they were; `Compute` on a preconditioner that is
not initialized reports a precondition error and leaves the object as it was, in
particular still not initialized and not computed by this call. -/
theorem lifecycle_preconditions (PowerMethod : Operator → Vec → ℚ) (coef : Coefficients)
    (A : Operator) (s : State) (X Y : Vec) :
    (s.IsComputed = false →
      (ApplyInverse coef A s X Y).status = .failed .precondition ∧
      (ApplyInverse coef A s X Y).Y = Y ∧
      (ApplyInverse coef A s X Y).state = s) ∧
    (s.IsInitialized = false →
      (Compute PowerMethod A s).1 = .failed .precondition ∧
      (Compute PowerMethod A s).2 = s ∧
      (Compute PowerMethod A s).2.IsInitialized = false) := by
  constructor
  · intro h
    have h1 : s.IsComputed_ = false := h
    unfold ApplyInverse
    simp [h1]
  · intro h
    have h1 : s.IsInitialized_ = false := h
    unfold Compute
    simp [h1, State.IsInitialized]

/-- Witness for C4: `scenarioState` is initialized but not computed, so
`ApplyInverse` fails on it and leaves `(7, 9)` alone; with the initialized flag
cleared, `Compute` fails on it. -/
theorem lifecycle_preconditions_witness :
    (ApplyInverse scenarioCoefficients (diagOperator [2, 4]) scenarioState
      [1, 1] [7, 9]).status = .failed .precondition ∧
    (ApplyInverse scenarioCoefficients (diagOperator [2, 4]) scenarioState
      [1, 1] [7, 9]).Y = [7, 9] ∧
    (Compute scenarioPowerMethod (diagOperator [2, 4])
      { scenarioState with IsInitialized_ := false }).1 = .failed .precondition :=
  ⟨((lifecycle_preconditions scenarioPowerMethod scenarioCoefficients
      (diagOperator [2, 4]) scenarioState [1, 1] [7, 9]).1 rfl).1,
   ((lifecycle_preconditions scenarioPowerMethod scenarioCoefficients
      (diagOperator [2, 4]) scenarioState [1, 1] [7, 9]).1 rfl).2.1,
   ((lifecycle_preconditions scenarioPowerMethod scenarioCoefficients
      (diagOperator [2, 4]) { scenarioState with IsInitialized_ := false }
      [1, 1] [7, 9]).2 rfl).1⟩

end Ifpack_Chebyshev

/-! ## Theorems: argument objects and the converged-model evaluation -/

namespace Piro

/-- C11: for every model, every `num_p` and `num_g`, every initial-condition model
(present or null), the `OutArgs` built by `createOutArgsImpl` has `Np = num_p` and
`Ng = num_g + 1`, whichever return statement is taken, and the `InArgs` built by
`createInArgs` has `Np = num_p`. -/
theorem createOutArgsImpl_Np_Ng {Space : Type} (self : TransientSolver Space)
    (description : String) (modelOutArgs : OutArgs) (initCondOutArgs : Option OutArgs) :
    (self.createOutArgsImpl description modelOutArgs initCondOutArgs).Np = self.num_p_ ∧
    (self.createOutArgsImpl description modelOutArgs initCondOutArgs).Ng
      = self.num_g_ + 1 ∧
    (self.createInArgs description).Np = self.num_p_ := by
  refine ⟨?_, ?_, rfl⟩
  · unfold TransientSolver.createOutArgsImpl
    simp only
    split_ifs <;> rfl
  · unfold TransientSolver.createOutArgsImpl
    simp only
    split_ifs <;> rfl

/-- The indices a counting loop visits are the non-negative ones below its bound. -/
theorem mem_loopIndices (n k : Int) : k ∈ loopIndices n ↔ 0 ≤ k ∧ k < n := by
  unfold loopIndices
  simp only [List.mem_map, List.mem_range]
  constructor
  · rintro ⟨m, hm, rfl⟩
    simp only [Int.ofNat_eq_coe]
    omega
  · rintro ⟨h0, hn⟩
    refine ⟨k.toNat, by omega, ?_⟩
    simp only [Int.ofNat_eq_coe]
    omega

/-- The inner loop ends with the flag set exactly when some visited index hits, or
the flag was set before. -/
theorem innerSensitivityLoop_eq_true (outArgs : OutArgs) (i : Int) (js : List Int)
    (r : Bool) :
    innerSensitivityLoop outArgs i js r = true ↔
      (∃ j ∈ js, sensitivityRequestedAt outArgs j i = true) ∨ r = true := by
  induction js with
  | nil => simp [innerSensitivityLoop]
  | cons j js ih =>
    unfold innerSensitivityLoop
    by_cases h : sensitivityRequestedAt outArgs j i = true
    · simp [h]
    · simp only [h, Bool.false_eq_true, if_false, ih, List.mem_cons, exists_eq_or_imp,
        false_or]

/-- The nested loops end with the flag set exactly when some visited pair hits, or
the flag was set before. -/
theorem sensitivityLoops_eq_true (outArgs : OutArgs) (is js : List Int) (r : Bool) :
    is.foldl (fun requested i => innerSensitivityLoop outArgs i js requested) r = true ↔
      (∃ i ∈ is, ∃ j ∈ js, sensitivityRequestedAt outArgs j i = true) ∨ r = true := by
  induction is generalizing r with
  | nil => simp
  | cons i is ih =>
    rw [List.foldl_cons, ih, innerSensitivityLoop_eq_true]
    simp only [List.mem_cons, exists_eq_or_imp]
    constructor
    · rintro (h | h | h)
      · exact Or.inl (Or.inr h)
      · exact Or.inl (Or.inl h)
      · exact Or.inr h
    · rintro ((h | h) | h)
      · exact Or.inr (Or.inl h)
      · exact Or.inl h
      · exact Or.inr (Or.inr h)

/-- The flag `requestedSensitivities` is set exactly when some parameter `i < num_p`
and some response slot `j ≤ num_g` has a supported, non-empty `DgDp(j, i)`. -/
theorem requestedSensitivities_iff {Space : Type} (self : TransientSolver Space)
    (outArgs : OutArgs) :
    self.requestedSensitivities outArgs = true ↔
      ∃ i j : Int, 0 ≤ i ∧ i < self.num_p_ ∧ 0 ≤ j ∧ j ≤ self.num_g_ ∧
        (outArgs.supports_DgDp j i).none = false ∧
        (outArgs.get_DgDp j i).isEmpty = false := by
  unfold TransientSolver.requestedSensitivities
  rw [sensitivityLoops_eq_true]
  simp only [Bool.false_eq_true, or_false, mem_loopIndices, sensitivityRequestedAt,
    Bool.and_eq_true, Bool.not_eq_true']
  constructor
  · rintro ⟨i, ⟨hi0, hi1⟩, j, ⟨hj0, hj1⟩, h1, h2⟩
    exact ⟨i, j, hi0, hi1, hj0, by omega, h1, h2⟩
  · rintro ⟨i, j, hi0, hi1, hj0, hj1, h1, h2⟩
    exact ⟨i, ⟨hi0, hi1⟩, j, ⟨hj0, by omega⟩, h1, h2⟩

/-- C12: `evalConvergedModel` raises InvalidParameter, without having evaluated the
model, if and only if sensitivities are requested, that is, some `i < num_p` and
`j ≤ num_g` have `DgDp(j, i)` supported by `outArgs` and its derivative object
non-empty; otherwise it goes on to evaluate the model. This holds for every value of
the sensitivity method. -/
theorem evalConvergedModel_raises_iff {Space : Type} (self : TransientSolver Space)
    (outArgs : OutArgs) :
    (((self.evalConvergedModel outArgs).outcome = .thrown .InvalidParameter ∧
        (self.evalConvergedModel outArgs).modelEvaluated = false) ↔
      ∃ i j : Int, 0 ≤ i ∧ i < self.num_p_ ∧ 0 ≤ j ∧ j ≤ self.num_g_ ∧
        (outArgs.supports_DgDp j i).none = false ∧
        (outArgs.get_DgDp j i).isEmpty = false) ∧
    (((self.evalConvergedModel outArgs).outcome = .returned () ∧
        (self.evalConvergedModel outArgs).modelEvaluated = true) ↔
      ¬ ∃ i j : Int, 0 ≤ i ∧ i < self.num_p_ ∧ 0 ≤ j ∧ j ≤ self.num_g_ ∧
        (outArgs.supports_DgDp j i).none = false ∧
        (outArgs.get_DgDp j i).isEmpty = false) := by
  rw [← requestedSensitivities_iff]
  unfold TransientSolver.evalConvergedModel
  by_cases h : self.requestedSensitivities outArgs = true
  · rw [if_pos h]
    cases self.sensitivityMethod_ <;> simp [h]
  · rw [if_neg h]
    simp [h]

/-- Witness for C12: on `sampleSolver` with the `DgDp(3, 0)` object set, the call
raises InvalidParameter before evaluating the model, under the method `NONE` and
under `FORWARD` alike; with no derivative object set it evaluates the model. -/
theorem evalConvergedModel_raises_iff_witness :
    ((sampleSolver.evalConvergedModel sampleRequestOutArgs).outcome
        = .thrown .InvalidParameter ∧
      (sampleSolver.evalConvergedModel sampleRequestOutArgs).modelEvaluated = false) ∧
    (({ sampleSolver with sensitivityMethod_ := .FORWARD }.evalConvergedModel
        sampleRequestOutArgs).outcome = .thrown .InvalidParameter ∧
      ({ sampleSolver with sensitivityMethod_ := .FORWARD }.evalConvergedModel
        sampleRequestOutArgs).modelEvaluated = false) ∧
    ((sampleSolver.evalConvergedModel sampleModelOutArgs).outcome = .returned () ∧
      (sampleSolver.evalConvergedModel sampleModelOutArgs).modelEvaluated = true) :=
  ⟨(evalConvergedModel_raises_iff sampleSolver sampleRequestOutArgs).1.mpr
      ⟨0, 3, by decide, by decide, by decide, by decide, by decide, by decide⟩,
   (evalConvergedModel_raises_iff { sampleSolver with sensitivityMethod_ := .FORWARD }
      sampleRequestOutArgs).1.mpr
      ⟨0, 3, by decide, by decide, by decide, by decide, by decide, by decide⟩,
   (evalConvergedModel_raises_iff sampleSolver sampleModelOutArgs).2.mpr (by
      rintro ⟨i, j, -, -, -, -, -, h⟩
      simp [sampleModelOutArgs, Derivative.isEmpty] at h)⟩

end Piro

/-! ## Theorems: inline members of Ifpack_Chebyshev -/

namespace Ifpack_Chebyshev

/-- C13: `SetUseTranspose(b)` returns 0, never -1, for every `b` and every object;
afterwards `UseTranspose()` returns `b`; and the object differs from the one before
in the field `UseTranspose_` only, so the lifecycle flags, the counters, the spectral
bounds, the degree and the condition estimate are unchanged. -/
theorem SetUseTranspose_spec (s : State) (b : Bool) :
    (SetUseTranspose s b).1 = 0 ∧ (SetUseTranspose s b).1 ≠ -1 ∧
    UseTranspose (SetUseTranspose s b).2 = b ∧
    (SetUseTranspose s b).2 = { s with UseTranspose_ := b } ∧
    (SetUseTranspose s b).2.IsInitialized_ = s.IsInitialized_ ∧
    (SetUseTranspose s b).2.IsComputed_ = s.IsComputed_ ∧
    (SetUseTranspose s b).2.NumInitialize_ = s.NumInitialize_ ∧
    (SetUseTranspose s b).2.NumCompute_ = s.NumCompute_ ∧
    (SetUseTranspose s b).2.NumApplyInverse_ = s.NumApplyInverse_ ∧
    (SetUseTranspose s b).2.EigRatio_ = s.EigRatio_ ∧
    (SetUseTranspose s b).2.LambdaMin_ = s.LambdaMin_ ∧
    (SetUseTranspose s b).2.LambdaMax_ = s.LambdaMax_ ∧
    (SetUseTranspose s b).2.PolyDegree_ = s.PolyDegree_ ∧
    (SetUseTranspose s b).2.Condest_ = s.Condest_ := by
  refine ⟨rfl, ?_, rfl, rfl, rfl, rfl, rfl, rfl, rfl, rfl, rfl, rfl, rfl, rfl⟩
  show (0 : Int) ≠ -1
  decide

/-- `Compute` leaves an absent condition estimate absent. -/
theorem Compute_Condest (PowerMethod : Operator → Vec → ℚ) (A : Operator) (s : State)
    (h : s.Condest_ = -1) : (Compute PowerMethod A s).2.Condest_ = -1 := by
  unfold Compute
  simp only
  split_ifs <;> first | exact h | rfl

/-- `ApplyInverse` does not touch the condition estimate. -/
theorem ApplyInverse_Condest (coef : Coefficients) (A : Operator) (s : State)
    (X Y : Vec) : (ApplyInverse coef A s X Y).state.Condest_ = s.Condest_ := by
  unfold ApplyInverse
  by_cases hc : s.IsComputed_ = false
  · rw [if_pos hc]
  · rw [if_neg hc]
    cases s.InvDiagonal_ <;> rfl

/-- `Initialize` does not touch the condition estimate. -/
theorem Initialize_Condest (shape : OperatorShape) (s : State) :
    (Initialize shape s).2.Condest_ = s.Condest_ := by
  unfold Initialize
  split_ifs <;> rfl

/-- No call that computes no estimate changes an absent condition estimate. -/
theorem Call.run_Condest (c : Call) (s : State) (h : s.Condest_ = -1) :
    (c.run s).Condest_ = -1 := by
  cases c with
  | init shape =>
    show (Initialize shape s).2.Condest_ = -1
    rw [Initialize_Condest, h]
  | setUseTranspose b => exact h
  | compute PowerMethod A => exact Compute_Condest PowerMethod A s h
  | applyInverse coef A X Y =>
    show (ApplyInverse coef A s X Y).state.Condest_ = -1
    rw [ApplyInverse_Condest, h]
  | condest => exact h

/-- A sequence of calls that compute no estimate leaves an absent condition estimate
absent. -/
theorem runCalls_Condest (calls : List Call) (s : State) (h : s.Condest_ = -1) :
    (runCalls calls s).Condest_ = -1 := by
  unfold runCalls
  induction calls generalizing s with
  | nil => exact h
  | cons c cs ih =>
    rw [List.foldl_cons]
    exact ih (c.run s) (Call.run_Condest c s h)

/-- A successful `Compute` invalidates the cached condition estimate. -/
theorem Compute_ok_Condest (PowerMethod : Operator → Vec → ℚ) (A : Operator) (s : State)
    (hok : (Compute PowerMethod A s).1 = .ok) :
    (Compute PowerMethod A s).2.Condest_ = -1 := by
  unfold Compute at hok ⊢
  simp only at hok ⊢
  split_ifs at hok ⊢
  rfl

/-- C14: the argument-less `Condest()` returns the cached estimate `Condest_` and
leaves the object as it was; on an object on which, since its construction, only
calls that compute no estimate were made (Initialize, Compute, ApplyInverse,
SetUseTranspose, `Condest()`, in any number and order), it returns -1; and a
successful `Compute` invalidates whatever estimate was cached, so that `Condest()`
returns -1 after it and after any further calls that compute no estimate. -/
theorem Condest_cached (PowerMethod : Operator → Vec → ℚ) (A : Operator)
    (s unspecified : State) (calls : List Call) :
    (Condest s).1 = s.Condest_ ∧ (Condest s).2 = s ∧
    (Condest (construct unspecified)).1 = -1 ∧
    (Condest (runCalls calls (construct unspecified))).1 = -1 ∧
    ((Compute PowerMethod A s).1 = .ok →
      (Condest (runCalls calls (Compute PowerMethod A s).2)).1 = -1) :=
  ⟨rfl, rfl, rfl, runCalls_Condest calls (construct unspecified) rfl,
   fun hok => runCalls_Condest calls _ (Compute_ok_Condest PowerMethod A s hok)⟩

/-- Witness for C14: the lifecycle `scenarioCalls` takes a freshly constructed object
to an initialized and computed one that has applied the preconditioner once, and
`Condest()` on it returns -1; on an object whose cached estimate is `7/2`,
`Condest()` returns `7/2`, and after a successful `Compute` on that object it
returns -1. -/
theorem Condest_cached_witness :
    (runCalls scenarioCalls (construct scenarioState)).IsInitialized_ = true ∧
    (runCalls scenarioCalls (construct scenarioState)).IsComputed_ = true ∧
    (runCalls scenarioCalls (construct scenarioState)).NumApplyInverse_ = 1 ∧
    (Condest (runCalls scenarioCalls (construct scenarioState))).1 = -1 ∧
    (Condest { scenarioState with Condest_ := 7 / 2 }).1 = 7 / 2 ∧
    (Condest (Compute scenarioPowerMethod (diagOperator [2, 4])
      { scenarioState with Condest_ := 7 / 2 }).2).1 = -1 :=
  ⟨by norm_num [runCalls, scenarioCalls, Call.run, Initialize, Compute, ApplyInverse,
      SetUseTranspose, Condest, construct, scenarioState, scenarioShape,
      scenarioPowerMethod],
   by norm_num [runCalls, scenarioCalls, Call.run, Initialize, Compute, ApplyInverse,
      SetUseTranspose, Condest, construct, scenarioState, scenarioShape,
      scenarioPowerMethod],
   by norm_num [runCalls, scenarioCalls, Call.run, Initialize, Compute, ApplyInverse,
      SetUseTranspose, Condest, construct, scenarioState, scenarioShape,
      scenarioPowerMethod],
   (Condest_cached scenarioPowerMethod (diagOperator [2, 4]) scenarioState
      scenarioState scenarioCalls).2.2.2.1,
   (Condest_cached scenarioPowerMethod (diagOperator [2, 4])
      { scenarioState with Condest_ := 7 / 2 } scenarioState []).1,
   (Condest_cached scenarioPowerMethod (diagOperator [2, 4])
      { scenarioState with Condest_ := 7 / 2 } scenarioState []).2.2.2.2
      (by norm_num [Compute, scenarioState])⟩

end Ifpack_Chebyshev
